import Mathlib

/-!
Shallow embedding of the segmented-capture and event-assembly engine of
`src/detector/motion_detector.py` (classes `SegmentRecorder`, `VideoMerger`
and `MotionDetector`), together with proofs of the behavioural claims about
it.

Modelling conventions:
* Wall-clock timestamps, durations and motion percentages are rationals
  (`ℚ`); Python floats carry no overflow/rounding behaviour that any claim
  depends on.
* A segment file on disk is a `SegInfo` record: its (timestamp-embedding)
  name, its mtime, its size in bytes, and a `present` flag modelling the
  `os.path.exists` / `FileNotFoundError` races the code tolerates.
* Filesystem snapshots are lists of `SegInfo`; a `glob` of the segments
  directory is the list itself, `sorted(...)` by name is a stable sort by
  the `name` field, `result.sort(key=mtime)` is a stable sort by `mtime`.
  Python's stable sort is modelled by `List.insertionSort` (also stable).
* External effects of `stop_recording` (the merge subprocess, the ffprobe
  call, the rename) are modelled by an `Env` record carrying their
  outcomes; the detector state transition is a pure function of the state,
  the environment and the inputs.
-/

/-- A segment file as observed on disk: `name` stands for the
timestamp-embedding file name `seg_%Y%m%d_%H%M%S.ts` (the sort key of
`sorted(...)`), `mtime` is `os.path.getmtime`, `size` is
`os.path.getsize`, and `present` records whether the file still exists
when it is statted (`os.path.exists` / `FileNotFoundError`). -/
structure SegInfo where
  name : ℕ
  mtime : ℚ
  size : ℕ
  present : Bool
deriving DecidableEq, Repr

/-- Ordering of segment files by file name, as used by
`SegmentRecorder._get_sorted_segments` (`sorted(glob.glob(...))`; the
names embed wall-clock timestamps). -/
def name_le (a b : SegInfo) : Prop := a.name ≤ b.name

instance : DecidableRel name_le := fun a b =>
  inferInstanceAs (Decidable (a.name ≤ b.name))

instance : IsTotal SegInfo name_le := ⟨fun a b => Nat.le_total a.name b.name⟩

instance : IsTrans SegInfo name_le := ⟨fun _ _ _ h h' => Nat.le_trans h h'⟩

/-- Ordering of segment files by capture time (mtime), as used by
`result.sort(key=lambda x: os.path.getmtime(x))`. -/
def mtime_le (a b : SegInfo) : Prop := a.mtime ≤ b.mtime

instance : DecidableRel mtime_le := fun a b =>
  inferInstanceAs (Decidable (a.mtime ≤ b.mtime))

instance : IsTotal SegInfo mtime_le := ⟨fun a b => le_total a.mtime b.mtime⟩

instance : IsTrans SegInfo mtime_le := ⟨fun _ _ _ h h' => le_trans h h'⟩

/-- Embeds `SegmentRecorder._get_sorted_segments`: the glob of `seg_*.ts`,
sorted by file name. -/
def get_sorted_segments (disk : List SegInfo) : List SegInfo :=
  List.insertionSort name_le disk

/-- Embeds `SegmentRecorder.get_segments_in_time_range(start_time, end_time)` in
segmented mode (`use_segments = True`): widen the range by
`margin = segment_duration * 2`, keep segments that still exist, whose
mtime lies inside the widened range and whose size exceeds 1000 bytes,
then sort the result ascending by mtime. -/
def get_segments_in_time_range (segment_duration : ℚ) (disk : List SegInfo)
    (start_time end_time : ℚ) : List SegInfo :=
  let segments := get_sorted_segments disk
  let margin := segment_duration * 2
  let result := segments.filter fun seg =>
    seg.present &&
    decide (start_time - margin ≤ seg.mtime) &&
    decide (seg.mtime ≤ end_time + margin) &&
    decide (1000 < seg.size)
  List.insertionSort mtime_le result

/-- The `RecordingType` enum of `motion_detector.py`. -/
inductive RecordingType where
  | NONE
  | MOTION
  | MANUAL
deriving DecidableEq, Repr

/-- The configuration fields of `MotionDetector` (and of its
`SegmentRecorder`) that the modelled operations read.  Immutable for the
process lifetime. -/
structure Config where
  buffer_seconds : ℚ
  post_motion_seconds : ℚ
  min_contour_area : ℚ
  min_motion_frames : ℕ
  motion_area_percent : ℚ
  extend_motion_percent : ℚ
  segment_duration : ℚ
  max_segments : ℕ
  roi_enabled : Bool
  roi_width : ℕ
  roi_height : ℕ
  frame_area : ℕ
deriving DecidableEq, Repr

/-- The mutable detector state: the recording-session fields and the
motion-state fields of `MotionDetector`, the numeric `stats` counters,
and the `cleanup_paused` flag of the owned `SegmentRecorder` (toggled by
`pause_cleanup` / `resume_cleanup`).  The `stats['last_motion']`
ISO-format string is not modelled: no claim mentions it. -/
structure DState where
  is_recording : Bool
  recording_type : RecordingType
  recording_buffer_start_time : Option ℚ
  recording_start_time : Option ℚ
  last_motion_time : ℚ
  consecutive_motion_frames : ℕ
  significant_motion_started : Bool
  motion_detection_enabled : Bool
  cleanup_paused : Bool
  frames_processed : ℕ
  motion_events : ℕ
  significant_motion_events : ℕ
  motion_videos_saved : ℕ
  manual_videos_saved : ℕ
deriving DecidableEq, Repr

/-- Outcomes of the external effects that `stop_recording` performs: the
disk snapshot seen by `get_segments_in_time_range`, the wall-clock time
`recording_end_time = time.time()` taken after the drain sleep, the
result of `VideoMerger.merge_segments`, whether the merged temp file
exists afterwards, the duration reported by `get_video_duration`
(`0` models a probe failure), and whether `os.rename` succeeds. -/
structure Env where
  disk : List SegInfo
  stop_end_time : ℚ
  mergeOk : Bool
  mergedExists : Bool
  probed_duration : ℚ
  renameOk : Bool

/-- Computes `max(os.path.getmtime(s) for s in segments)` over a non-empty list
(as computed in `stop_recording`'s staleness check). -/
def max_mtime : List SegInfo → ℚ
  | [] => 0
  | s :: rest => if rest.isEmpty then s.mtime else max s.mtime (max_mtime rest)

/-- Embeds `MotionDetector._check_segments_fresh(max_age)` in segmented mode:
false when the glob is empty, otherwise true iff the age of the newest
segment is strictly below `max_age`. -/
def check_segments_fresh (disk : List SegInfo) (now max_age : ℚ) : Bool :=
  if disk.isEmpty then false
  else decide (now - max_mtime disk < max_age)

/-- Embeds `MotionDetector.start_recording(rec_type)`: a no-op when a session is
already active or when the segments are not fresh (`max_age = 10`);
otherwise marks the session active with the given kind, pauses segment
cleanup, sets `recording_buffer_start_time` to
`now - buffer_seconds` for a Motion session and to `now` otherwise, and
sets `recording_start_time = now`. -/
def start_recording (cfg : Config) (disk : List SegInfo) (now : ℚ)
    (rec_type : RecordingType) (st : DState) : DState :=
  if st.is_recording = true then st
  else if check_segments_fresh disk now 10 = false then st
  else
    let st1 := { st with is_recording := true, recording_type := rec_type,
                         cleanup_paused := true }
    let buffer_start :=
      if rec_type = RecordingType.MOTION then now - cfg.buffer_seconds else now
    { st1 with recording_buffer_start_time := some buffer_start,
               recording_start_time := some now }

/-- Embeds `MotionDetector._reset_recording_state`: clears the session flags and
timestamps and resumes segment cleanup. -/
def reset_recording_state (st : DState) : DState :=
  { st with is_recording := false,
            recording_type := RecordingType.NONE,
            recording_start_time := none,
            recording_buffer_start_time := none,
            cleanup_paused := false }

/-- Embeds `MotionDetector.stop_recording()`: a no-op when no session is active.
Otherwise `is_recording` is flipped off under the lock, the drain sleep
passes and `recording_end_time` is taken (`env.stop_end_time`), the
segments covering `[recording_buffer_start_time, recording_end_time]`
are fetched; the empty path and the stale-newest path reset state and
return; otherwise the per-kind saved-clips counter is incremented, the
merge is attempted, and on every outcome (merge failure, merge success
with missing file, probe failure, rename failure or full success) the
state is reset via `reset_recording_state`. -/
def stop_recording (cfg : Config) (env : Env) (st : DState) : DState :=
  if st.is_recording = false then st
  else
    let was_recording_type := st.recording_type
    let st1 := { st with is_recording := false }
    let segments := get_segments_in_time_range cfg.segment_duration env.disk
      (st1.recording_buffer_start_time.getD 0) env.stop_end_time
    if segments.isEmpty then reset_recording_state st1
    else if max_mtime segments < st1.recording_start_time.getD 0 - 5 then
      reset_recording_state st1
    else
      let st2 :=
        if was_recording_type = RecordingType.MOTION then
          { st1 with motion_videos_saved := st1.motion_videos_saved + 1 }
        else
          { st1 with manual_videos_saved := st1.manual_videos_saved + 1 }
      if env.mergeOk = true then
        if env.mergedExists = false then reset_recording_state st2
        else if 0 < env.probed_duration then
          -- rename attempted; the detector state is reset whether or not
          -- the rename succeeds (the file merely keeps its temp name)
          if env.renameOk = true then reset_recording_state st2
          else reset_recording_state st2
        else reset_recording_state st2
      else reset_recording_state st2

/-- The analysis area chosen by `MotionDetector.detect_motion`: the ROI
rectangle's area when `roi_enabled` and both ROI dimensions are
positive, otherwise the full frame area. -/
def analysis_area (cfg : Config) : ℕ :=
  if cfg.roi_enabled = true ∧ 0 < cfg.roi_width ∧ 0 < cfg.roi_height then
    cfg.roi_width * cfg.roi_height
  else cfg.frame_area

/-- The summed area of the contours whose area strictly exceeds
`min_contour_area` (the `total_motion_area` accumulation loop of
`detect_motion`).  The contour areas produced by the opaque
background-subtraction pipeline are the function's input. -/
def total_motion_area (cfg : Config) (contours : List ℚ) : ℚ :=
  (contours.filter fun area => decide (cfg.min_contour_area < area)).sum

/-- Embeds `MotionDetector.detect_motion`, with the foreground-contour areas as
input: returns `(motion_detected, motion_percent)` where
`motion_percent = (total_motion_area / analysis_area) * 100` when the
analysis area is non-zero and `0` otherwise, and
`motion_detected = motion_percent ≥ motion_area_percent`. -/
def detect_motion (cfg : Config) (contours : List ℚ) : Bool × ℚ :=
  let area := analysis_area cfg
  let motion_percent :=
    if area ≠ 0 then total_motion_area cfg contours / (area : ℚ) * 100 else 0
  (decide (cfg.motion_area_percent ≤ motion_percent), motion_percent)

/-- Step 1 of `MotionDetector.process_frame`: any motion at or above the
extend threshold refreshes `last_motion_time` while an event is
active. -/
def frame_refresh (cfg : Config) (st : DState) (now pct : ℚ) : DState :=
  if cfg.extend_motion_percent ≤ pct ∧ st.significant_motion_started = true then
    { st with last_motion_time := now }
  else st

/-- Step 2 of `MotionDetector.process_frame`: the consecutive-frame
debounce.  A significant frame increments `consecutive_motion_frames`
(and the `motion_events` counter); once the count reaches
`min_motion_frames` the frame stamps `last_motion_time`, and if the
event was not yet active it becomes active (bumping
`significant_motion_events`) and, when auto-detection is enabled and no
session is active, a Motion session is started.  A non-significant frame
resets the count to zero. -/
def frame_debounce (cfg : Config) (disk : List SegInfo) (st : DState)
    (now pct : ℚ) : DState :=
  if cfg.motion_area_percent ≤ pct then
    let st1 := { st with
      consecutive_motion_frames := st.consecutive_motion_frames + 1,
      motion_events := st.motion_events + 1 }
    if cfg.min_motion_frames ≤ st1.consecutive_motion_frames then
      let st2 := { st1 with last_motion_time := now }
      if st2.significant_motion_started = false then
        let st3 := { st2 with
          significant_motion_started := true,
          significant_motion_events := st2.significant_motion_events + 1 }
        if st3.motion_detection_enabled = true ∧ st3.is_recording = false then
          start_recording cfg disk now RecordingType.MOTION st3
        else st3
      else st2
    else st1
  else { st with consecutive_motion_frames := 0 }

/-- Step 3 of `MotionDetector.process_frame`: while the event is active,
once `now - last_motion_time` exceeds `post_motion_seconds` the event
deactivates, and if a Motion session is active it is stopped. -/
def frame_linger (cfg : Config) (env : Env) (st : DState) (now : ℚ) : DState :=
  if st.significant_motion_started = true then
    if cfg.post_motion_seconds < now - st.last_motion_time then
      let st1 := { st with significant_motion_started := false }
      if st1.is_recording = true ∧ st1.recording_type = RecordingType.MOTION then
        stop_recording cfg env st1
      else st1
    else st
  else st

/-- Embeds `MotionDetector.process_frame`, with the frame replaced by the motion
percentage that `detect_motion` reports for it (`significant_motion` and
`any_motion` are recomputed from it exactly as the code does): the
refresh step, the debounce step, the linger step, then the
`frames_processed` counter bump. -/
def process_frame (cfg : Config) (env : Env) (st : DState)
    (now pct : ℚ) : DState :=
  let st1 := frame_refresh cfg st now pct
  let st2 := frame_debounce cfg env.disk st1 now pct
  let st3 := frame_linger cfg env st2 now
  { st3 with frames_processed := st3.frames_processed + 1 }

/-- A sequence of frames processed in order; each list element is the
pair `(current_time, motion_percent)` of one frame. -/
def process_frames (cfg : Config) (env : Env) (st : DState)
    (frames : List (ℚ × ℚ)) : DState :=
  frames.foldl (fun s f => process_frame cfg env s f.1 f.2) st

/-- The `newest_time` scan of `SegmentRecorder._monitor_ffmpeg`: starts
from `0`, takes each segment's mtime when the file still exists
(`FileNotFoundError` skips it) and keeps the maximum. -/
def newest_segment_mtime (segs : List SegInfo) : ℚ :=
  segs.foldl (fun acc s =>
    if s.present = true ∧ acc < s.mtime then s.mtime else acc) 0

/-- The staleness decision of `SegmentRecorder._monitor_ffmpeg` for a
live ffmpeg process: with fewer than 3 globbed segments, or a zero
`newest_time`, the check is skipped; otherwise the process is
force-restarted exactly when `now - newest_time > 15` (the code's
hard-coded 15-second window; `segment_duration` is the recorder's
configured chunk duration, carried here to state how the decision
depends on it). -/
def monitor_stale_restart (segment_duration : ℚ) (now : ℚ)
    (segs : List SegInfo) : Bool :=
  if segs.length < 3 then false
  else
    let newest_time := newest_segment_mtime segs
    if newest_time = 0 then false
    else decide (15 < now - newest_time)

/-- The staleness decision as the spec words it (a window of ~15 times
the chunk duration), for comparison with `monitor_stale_restart`. -/
def monitor_stale_restart_per_spec (segment_duration : ℚ) (now : ℚ)
    (segs : List SegInfo) : Bool :=
  if segs.length < 3 then false
  else
    let newest_time := newest_segment_mtime segs
    if newest_time = 0 then false
    else decide (15 * segment_duration < now - newest_time)

/-- The `os.remove` of one segment in
`SegmentRecorder._cleanup_old_segments`, with `FileNotFoundError`
tolerated: erasing a segment that is already gone leaves the disk
unchanged. -/
def remove_segment (disk : List SegInfo) (s : SegInfo) : List SegInfo :=
  disk.erase s

/-- One pass of the `SegmentRecorder._cleanup_old_segments` retention
sweep body (segmented mode): when not paused and more than
`max_segments` segments exist, delete `segments[:-max_segments]` — the
oldest ones in name (= timestamp) order — tolerating already-deleted
files. -/
def cleanup_old_segments_once (max_segments : ℕ) (cleanup_paused : Bool)
    (disk : List SegInfo) : List SegInfo :=
  if cleanup_paused = true then disk
  else
    let segments := get_sorted_segments disk
    if max_segments < segments.length then
      let to_delete := segments.take (segments.length - max_segments)
      to_delete.foldl remove_segment disk
    else disk

/-- The analysis area as claim C10 words it: the ROI rectangle's area
whenever ROI is enabled, otherwise the full frame area (without the
code's additional requirement that both ROI dimensions be positive). -/
def analysis_area_per_claim (cfg : Config) : ℕ :=
  if cfg.roi_enabled = true then cfg.roi_width * cfg.roi_height
  else cfg.frame_area

/-- A fully idle detector state, used by the concrete witnesses. -/
def idle_state : DState where
  is_recording := false
  recording_type := RecordingType.NONE
  recording_buffer_start_time := none
  recording_start_time := none
  last_motion_time := 0
  consecutive_motion_frames := 0
  significant_motion_started := false
  motion_detection_enabled := true
  cleanup_paused := false
  frames_processed := 0
  motion_events := 0
  significant_motion_events := 0
  motion_videos_saved := 0
  manual_videos_saved := 0

/-- The source defaults: buffer 5 s, post-motion 5 s, min contour area
500, 3 consecutive frames, start threshold 0.5 %, extend threshold
0.2 %, 1-second chunks, 300 retained chunks, ROI disabled. -/
def base_config : Config where
  buffer_seconds := 5
  post_motion_seconds := 5
  min_contour_area := 500
  min_motion_frames := 3
  motion_area_percent := 1/2
  extend_motion_percent := 1/5
  segment_duration := 1
  max_segments := 300
  roi_enabled := false
  roi_width := 0
  roi_height := 0
  frame_area := 1000

/-- A one-segment disk whose segment is fresh at time 105. -/
def fresh_disk : List SegInfo := [⟨1, 100, 2000, true⟩]

/-- An environment in which the merge subprocess fails. -/
def merge_fail_env : Env where
  disk := fresh_disk
  stop_end_time := 105
  mergeOk := false
  mergedExists := false
  probed_duration := 0
  renameOk := false

/-- A detector state with an active Motion session that started at
time 100 with a 5-second pre-roll. -/
def motion_session_state : DState :=
  { idle_state with
      is_recording := true
      recording_type := RecordingType.MOTION
      recording_buffer_start_time := some 95
      recording_start_time := some 100
      cleanup_paused := true }

/-- Function `stop_recording` leaves `is_recording` false whatever the starting
state: a no-op start state already has it false, and every other path
ends in `reset_recording_state`. -/
lemma stop_recording_not_recording (cfg : Config) (env : Env) (st : DState) :
    (stop_recording cfg env st).is_recording = false := by
  by_cases h : st.is_recording = false
  · simp [stop_recording, h]
  · unfold stop_recording
    rw [if_neg h]
    by_cases hty : st.recording_type = RecordingType.MOTION <;>
      simp only [hty, if_true, if_false, reduceIte] <;>
        split_ifs <;> simp [reset_recording_state]

/-- On an active session, every path of `stop_recording` ends in
`reset_recording_state`: session inactive, type `NONE`, both timestamps
cleared, cleanup resumed. -/
lemma stop_recording_resets (cfg : Config) (env : Env) (st : DState)
    (h : st.is_recording = true) :
    (stop_recording cfg env st).is_recording = false ∧
    (stop_recording cfg env st).recording_type = RecordingType.NONE ∧
    (stop_recording cfg env st).recording_start_time = none ∧
    (stop_recording cfg env st).recording_buffer_start_time = none ∧
    (stop_recording cfg env st).cleanup_paused = false := by
  unfold stop_recording
  rw [if_neg (by simp [h])]
  by_cases hty : st.recording_type = RecordingType.MOTION <;>
    simp only [hty, if_true, if_false, reduceIte] <;>
      split_ifs <;> simp [reset_recording_state]

/-- Function `stop_recording` never changes the consecutive-frame counter. -/
lemma stop_recording_consecutive (cfg : Config) (env : Env) (st : DState) :
    (stop_recording cfg env st).consecutive_motion_frames
      = st.consecutive_motion_frames := by
  by_cases h : st.is_recording = false
  · simp [stop_recording, h]
  · unfold stop_recording
    rw [if_neg h]
    by_cases hty : st.recording_type = RecordingType.MOTION <;>
      simp only [hty, if_true, if_false, reduceIte] <;>
        split_ifs <;> simp [reset_recording_state]

/-- Function `stop_recording` never changes the event-active flag. -/
lemma stop_recording_sig (cfg : Config) (env : Env) (st : DState) :
    (stop_recording cfg env st).significant_motion_started
      = st.significant_motion_started := by
  by_cases h : st.is_recording = false
  · simp [stop_recording, h]
  · unfold stop_recording
    rw [if_neg h]
    by_cases hty : st.recording_type = RecordingType.MOTION <;>
      simp only [hty, if_true, if_false, reduceIte] <;>
        split_ifs <;> simp [reset_recording_state]

/-- Function `start_recording` never changes the event-active flag. -/
lemma start_recording_sig (cfg : Config) (disk : List SegInfo) (now : ℚ)
    (rt : RecordingType) (st : DState) :
    (start_recording cfg disk now rt st).significant_motion_started
      = st.significant_motion_started := by
  unfold start_recording
  split_ifs <;> simp

/-- Function `start_recording` never changes `last_motion_time`. -/
lemma start_recording_lmt (cfg : Config) (disk : List SegInfo) (now : ℚ)
    (rt : RecordingType) (st : DState) :
    (start_recording cfg disk now rt st).last_motion_time
      = st.last_motion_time := by
  unfold start_recording
  split_ifs <;> simp

/-- C2: a recording session accepted at time `now` (no session active,
segments fresh) records `recording_start_time = now`; a Motion session
sets `recording_buffer_start_time = now - buffer_seconds` (pre-roll),
a Manual session sets it to `now` (no pre-roll). -/
theorem claim_C2_preroll (cfg : Config) (disk : List SegInfo) (now : ℚ)
    (st : DState) (hrec : st.is_recording = false)
    (hfresh : check_segments_fresh disk now 10 = true) :
    (start_recording cfg disk now RecordingType.MOTION st).recording_buffer_start_time
      = some (now - cfg.buffer_seconds) ∧
    (start_recording cfg disk now RecordingType.MOTION st).recording_start_time
      = some now ∧
    (start_recording cfg disk now RecordingType.MANUAL st).recording_buffer_start_time
      = some now ∧
    (start_recording cfg disk now RecordingType.MANUAL st).recording_start_time
      = some now := by
  simp [start_recording, hrec, hfresh]

/-- Closed instance of C2: a Motion start at time 105 with 5-second
pre-roll buffers from time 100; a Manual start buffers from 105. -/
theorem claim_C2_preroll_witness :
    idle_state.is_recording = false ∧
    check_segments_fresh fresh_disk 105 10 = true ∧
    ((start_recording base_config fresh_disk 105 RecordingType.MOTION
        idle_state).recording_buffer_start_time
      = some (105 - base_config.buffer_seconds) ∧
    (start_recording base_config fresh_disk 105 RecordingType.MOTION
        idle_state).recording_start_time = some 105 ∧
    (start_recording base_config fresh_disk 105 RecordingType.MANUAL
        idle_state).recording_buffer_start_time = some 105 ∧
    (start_recording base_config fresh_disk 105 RecordingType.MANUAL
        idle_state).recording_start_time = some 105) :=
  ⟨rfl, by norm_num [check_segments_fresh, fresh_disk, max_mtime],
    claim_C2_preroll base_config fresh_disk 105 idle_state
      rfl (by norm_num [check_segments_fresh, fresh_disk, max_mtime])⟩

/-- C5: stopping an active session always terminates with the session
state fully reset (inactive, type `NONE`, both timestamps cleared) and
cleanup resumed, for every environment outcome — empty segment list,
stale segments, merge failure, missing merged file, probe failure,
rename failure or full success. -/
theorem claim_C5_stop_always_resets (cfg : Config) (env : Env) (st : DState)
    (h : st.is_recording = true) :
    (stop_recording cfg env st).is_recording = false ∧
    (stop_recording cfg env st).recording_type = RecordingType.NONE ∧
    (stop_recording cfg env st).recording_start_time = none ∧
    (stop_recording cfg env st).recording_buffer_start_time = none ∧
    (stop_recording cfg env st).cleanup_paused = false :=
  stop_recording_resets cfg env st h

/-- Closed instance of C5 on the merge-failure path. -/
theorem claim_C5_stop_always_resets_witness :
    motion_session_state.is_recording = true ∧
    ((stop_recording base_config merge_fail_env motion_session_state).is_recording
        = false ∧
    (stop_recording base_config merge_fail_env motion_session_state).recording_type
        = RecordingType.NONE ∧
    (stop_recording base_config merge_fail_env
        motion_session_state).recording_start_time = none ∧
    (stop_recording base_config merge_fail_env
        motion_session_state).recording_buffer_start_time = none ∧
    (stop_recording base_config merge_fail_env
        motion_session_state).cleanup_paused = false) :=
  ⟨rfl,
    claim_C5_stop_always_resets base_config merge_fail_env motion_session_state
      rfl⟩

/-- A disk with three segments, all last written at time 100. -/
def stale_disk : List SegInfo :=
  [⟨1, 100, 2000, true⟩, ⟨2, 100, 2000, true⟩, ⟨3, 100, 2000, true⟩]

/-- C6 counterexample: with chunk duration 2 and the newest chunk 20
seconds old, the code force-restarts (its window is the hard-coded 15
seconds), while a window of 15 times the chunk duration (30 s) would
not; the staleness decision does not scale with the chunk duration. -/
theorem claim_C6_counterexample :
    monitor_stale_restart 2 120 stale_disk = true ∧
    monitor_stale_restart_per_spec 2 120 stale_disk = false ∧
    monitor_stale_restart 2 120 stale_disk ≠
      monitor_stale_restart_per_spec 2 120 stale_disk := by
  norm_num [monitor_stale_restart, monitor_stale_restart_per_spec, stale_disk,
    newest_segment_mtime]

/-- C6 (amended): the health monitor's staleness window is a fixed 15
seconds, independent of the configured chunk duration; with at least 3
segments globbed and a non-zero newest mtime, the live process is
force-restarted exactly when the newest segment is more than 15 seconds
old. -/
theorem claim_C6_fixed_staleness_window (d d' now : ℚ) (segs : List SegInfo) :
    monitor_stale_restart d now segs = monitor_stale_restart d' now segs ∧
    (monitor_stale_restart d now segs = true ↔
      3 ≤ segs.length ∧ newest_segment_mtime segs ≠ 0 ∧
      15 < now - newest_segment_mtime segs) := by
  refine ⟨rfl, ?_⟩
  unfold monitor_stale_restart
  by_cases h1 : segs.length < 3
  · rw [if_pos h1]
    simp only [Bool.false_eq_true, false_iff]
    intro h
    omega
  · rw [if_neg h1]
    by_cases h2 : newest_segment_mtime segs = 0
    · rw [if_pos h2]
      simp only [Bool.false_eq_true, false_iff]
      intro h
      exact h.2.1 h2
    · rw [if_neg h2]
      simp only [decide_eq_true_eq]
      constructor
      · intro h
        exact ⟨by omega, h2, h⟩
      · intro h
        exact h.2.2

/-- Closed instance of the amended C6 at chunk durations 1 and 7. -/
theorem claim_C6_fixed_staleness_window_witness :
    monitor_stale_restart 1 120 stale_disk =
      monitor_stale_restart 7 120 stale_disk ∧
    (monitor_stale_restart 1 120 stale_disk = true ↔
      3 ≤ stale_disk.length ∧ newest_segment_mtime stale_disk ≠ 0 ∧
      15 < 120 - newest_segment_mtime stale_disk) :=
  claim_C6_fixed_staleness_window 1 7 120 stale_disk

/-- Folding the tolerant per-segment delete over an initial run of a
duplicate-free disk removes exactly that run. -/
lemma foldl_remove_segment (l₁ l₂ : List SegInfo) (h : (l₁ ++ l₂).Nodup) :
    l₁.foldl remove_segment (l₁ ++ l₂) = l₂ := by
  induction l₁ with
  | nil => simp
  | cons a tl ih =>
    simp only [List.cons_append, List.foldl_cons]
    have he : remove_segment (a :: (tl ++ l₂)) a = tl ++ l₂ := by
      simp [remove_segment]
    rw [he]
    have h' : (a :: (tl ++ l₂)).Nodup := by simpa using h
    exact ih (List.nodup_cons.mp h').2

/-- C7: an unpaused retention sweep over a name-sorted, duplicate-free
disk deletes exactly the oldest segments in excess of `max_segments`:
the survivors are the `max_segments` newest segments (the suffix in
timestamp order), at most `max_segments` remain, and deleting a segment
that is already gone leaves the disk unchanged. -/
theorem claim_C7_retention_sweep (max_segments : ℕ) (disk : List SegInfo)
    (hs : List.Sorted name_le disk) (hn : disk.Nodup) :
    cleanup_old_segments_once max_segments false disk
      = disk.drop (disk.length - max_segments) ∧
    (cleanup_old_segments_once max_segments false disk).length
      = min max_segments disk.length ∧
    (∀ s, s ∉ disk → remove_segment disk s = disk) := by
  have hss : get_sorted_segments disk = disk := hs.insertionSort_eq
  have hmain : cleanup_old_segments_once max_segments false disk
      = disk.drop (disk.length - max_segments) := by
    unfold cleanup_old_segments_once
    rw [if_neg (by simp), hss]
    dsimp only
    split_ifs with h
    · have hfold := foldl_remove_segment
        (disk.take (disk.length - max_segments))
        (disk.drop (disk.length - max_segments))
        (by rw [List.take_append_drop]; exact hn)
      rw [List.take_append_drop] at hfold
      exact hfold
    · have h0 : disk.length - max_segments = 0 := by omega
      rw [h0, List.drop_zero]
  refine ⟨hmain, ?_, fun s hs' => ?_⟩
  · rw [hmain, List.length_drop]
    omega
  · unfold remove_segment
    exact List.erase_of_not_mem hs'

/-- A name-sorted, duplicate-free disk of four segments. -/
def disk_four : List SegInfo :=
  [⟨1, 10, 2000, true⟩, ⟨2, 11, 2000, true⟩,
   ⟨3, 12, 2000, true⟩, ⟨4, 13, 2000, true⟩]

/-- Closed instance of C7: with `max_segments = 3` and four segments,
exactly the single oldest segment is deleted. -/
theorem claim_C7_retention_sweep_witness :
    List.Sorted name_le disk_four ∧ disk_four.Nodup ∧
    (cleanup_old_segments_once 3 false disk_four
        = disk_four.drop (disk_four.length - 3) ∧
      (cleanup_old_segments_once 3 false disk_four).length
        = min 3 disk_four.length ∧
      (∀ s, s ∉ disk_four → remove_segment disk_four s = disk_four)) :=
  ⟨by decide, by decide,
    claim_C7_retention_sweep 3 disk_four (by decide) (by decide)⟩

/-- C8: starting while a session is active is a no-op on the detector
state; stopping while no session is active is a no-op; a second stop
right after a first one changes nothing more. -/
theorem claim_C8_idempotence (cfg : Config) (env env2 : Env)
    (disk : List SegInfo) (now : ℚ) (rt : RecordingType) (st : DState) :
    (st.is_recording = true → start_recording cfg disk now rt st = st) ∧
    (st.is_recording = false → stop_recording cfg env st = st) ∧
    stop_recording cfg env2 (stop_recording cfg env st)
      = stop_recording cfg env st := by
  refine ⟨fun h => by simp [start_recording, h],
    fun h => by simp [stop_recording, h], ?_⟩
  have h0 := stop_recording_not_recording cfg env st
  generalize stop_recording cfg env st = X at h0 ⊢
  simp [stop_recording, h0]

/-- Closed instance of C8: start during an active session and stop with
no session are no-ops, and stop is idempotent. -/
theorem claim_C8_idempotence_witness :
    start_recording base_config fresh_disk 105 RecordingType.MANUAL
        motion_session_state = motion_session_state ∧
    stop_recording base_config merge_fail_env idle_state = idle_state ∧
    stop_recording base_config merge_fail_env
        (stop_recording base_config merge_fail_env motion_session_state)
      = stop_recording base_config merge_fail_env motion_session_state :=
  ⟨(claim_C8_idempotence base_config merge_fail_env merge_fail_env fresh_disk
      105 RecordingType.MANUAL motion_session_state).1 rfl,
   (claim_C8_idempotence base_config merge_fail_env merge_fail_env fresh_disk
      105 RecordingType.MANUAL idle_state).2.1 rfl,
   (claim_C8_idempotence base_config merge_fail_env merge_fail_env fresh_disk
      105 RecordingType.MANUAL motion_session_state).2.2⟩

/-- C9: when stop on an active session finds a non-empty, non-stale
segment set, the per-kind saved-clips counter is incremented, for every
merge/probe/rename outcome — in particular also when the merge fails
and no clip file is produced (the environment `env`, including
`env.mergeOk`, is universally quantified). -/
theorem claim_C9_counter_before_merge (cfg : Config) (env : Env) (st : DState)
    (h : st.is_recording = true)
    (hne : get_segments_in_time_range cfg.segment_duration env.disk
        (st.recording_buffer_start_time.getD 0) env.stop_end_time ≠ [])
    (hstale : ¬ max_mtime (get_segments_in_time_range cfg.segment_duration
          env.disk (st.recording_buffer_start_time.getD 0) env.stop_end_time)
        < st.recording_start_time.getD 0 - 5) :
    (st.recording_type = RecordingType.MOTION →
      (stop_recording cfg env st).motion_videos_saved
        = st.motion_videos_saved + 1 ∧
      (stop_recording cfg env st).manual_videos_saved
        = st.manual_videos_saved) ∧
    (st.recording_type = RecordingType.MANUAL →
      (stop_recording cfg env st).manual_videos_saved
        = st.manual_videos_saved + 1 ∧
      (stop_recording cfg env st).motion_videos_saved
        = st.motion_videos_saved) := by
  unfold stop_recording
  rw [if_neg (by simp [h])]
  rw [if_neg (by simpa using hne)]
  rw [if_neg hstale]
  constructor
  · intro hty
    simp only [hty, reduceCtorEq, if_true, if_false, reduceIte]
    split_ifs <;> simp [reset_recording_state]
  · intro hty
    simp only [hty, reduceCtorEq, if_true, if_false, reduceIte]
    split_ifs <;> simp [reset_recording_state]

/-- Closed instance of C9 on a merge-failure run of a Motion session. -/
theorem claim_C9_counter_before_merge_witness :
    motion_session_state.is_recording = true ∧
    get_segments_in_time_range base_config.segment_duration
        merge_fail_env.disk
        (motion_session_state.recording_buffer_start_time.getD 0)
        merge_fail_env.stop_end_time ≠ [] ∧
    ¬ max_mtime (get_segments_in_time_range base_config.segment_duration
          merge_fail_env.disk
          (motion_session_state.recording_buffer_start_time.getD 0)
          merge_fail_env.stop_end_time)
        < motion_session_state.recording_start_time.getD 0 - 5 ∧
    (motion_session_state.recording_type = RecordingType.MOTION →
      (stop_recording base_config merge_fail_env
          motion_session_state).motion_videos_saved
        = motion_session_state.motion_videos_saved + 1 ∧
      (stop_recording base_config merge_fail_env
          motion_session_state).manual_videos_saved
        = motion_session_state.manual_videos_saved) :=
  ⟨rfl,
   by norm_num [get_segments_in_time_range, get_sorted_segments, merge_fail_env,
     fresh_disk, base_config, motion_session_state, idle_state,
     List.insertionSort, List.orderedInsert],
   by norm_num [get_segments_in_time_range, get_sorted_segments, merge_fail_env,
     fresh_disk, base_config, motion_session_state, idle_state, max_mtime,
     List.insertionSort, List.orderedInsert],
   (claim_C9_counter_before_merge base_config merge_fail_env
      motion_session_state rfl
      (by norm_num [get_segments_in_time_range, get_sorted_segments,
        merge_fail_env, fresh_disk, base_config, motion_session_state,
        idle_state, List.insertionSort, List.orderedInsert])
      (by norm_num [get_segments_in_time_range, get_sorted_segments,
        merge_fail_env, fresh_disk, base_config, motion_session_state,
        idle_state, max_mtime, List.insertionSort, List.orderedInsert])).1⟩

/-- A config with ROI enabled but both ROI dimensions zero. -/
def roi_degenerate_config : Config :=
  { base_config with
      roi_enabled := true
      roi_width := 0
      roi_height := 0
      frame_area := 100
      min_contour_area := 0 }

/-- C10 counterexample: with ROI enabled but a zero-dimension ROI
rectangle, the analysis area as the claim defines it (ROI area whenever
ROI is enabled) is 0, yet `detect_motion` returns a non-zero motion
percent, because the code falls back to the full frame area unless both
ROI dimensions are positive. -/
theorem claim_C10_counterexample :
    analysis_area_per_claim roi_degenerate_config = 0 ∧
    (detect_motion roi_degenerate_config [50]).2 = 50 ∧
    ¬ (detect_motion roi_degenerate_config [50]).2 = 0 := by
  refine ⟨rfl, ?_, ?_⟩ <;>
    norm_num [detect_motion, total_motion_area, analysis_area,
      roi_degenerate_config, base_config]

/-- C10 (amended): `detect_motion` never divides by zero — when the
analysis area (the ROI rectangle's area if ROI is enabled with both
dimensions positive, otherwise the full frame area) is zero the motion
percent is exactly 0, and when it is non-zero the motion percent equals
100 times the summed area of the contours strictly exceeding
`min_contour_area`, divided by the analysis area. -/
theorem claim_C10_division_safety (cfg : Config) (contours : List ℚ) :
    (analysis_area cfg = 0 → (detect_motion cfg contours).2 = 0) ∧
    (analysis_area cfg ≠ 0 →
      (detect_motion cfg contours).2
        = 100 * total_motion_area cfg contours / (analysis_area cfg : ℚ)) := by
  constructor
  · intro h
    simp [detect_motion, h]
  · intro h
    simp only [detect_motion, ne_eq, h, not_false_eq_true, if_true, reduceIte]
    ring

/-- Closed instance of the amended C10 on a full-frame config. -/
theorem claim_C10_division_safety_witness :
    analysis_area base_config ≠ 0 ∧
    (detect_motion base_config [600]).2
      = 100 * total_motion_area base_config [600]
          / (analysis_area base_config : ℚ) :=
  ⟨by decide, (claim_C10_division_safety base_config [600]).2 (by decide)⟩

/-- The refresh step does nothing while the event is inactive. -/
lemma frame_refresh_inactive (cfg : Config) (st : DState) (now pct : ℚ)
    (h : st.significant_motion_started = false) :
    frame_refresh cfg st now pct = st := by
  simp [frame_refresh, h]

/-- With the event active and motion at or above the extend threshold,
the refresh step stamps `last_motion_time`. -/
lemma frame_refresh_active (cfg : Config) (st : DState) (now pct : ℚ)
    (h : st.significant_motion_started = true)
    (hp : cfg.extend_motion_percent ≤ pct) :
    frame_refresh cfg st now pct = { st with last_motion_time := now } := by
  simp [frame_refresh, h, hp]

/-- Below the extend threshold, the refresh step does nothing. -/
lemma frame_refresh_low (cfg : Config) (st : DState) (now pct : ℚ)
    (hp : ¬ cfg.extend_motion_percent ≤ pct) :
    frame_refresh cfg st now pct = st := by
  simp [frame_refresh, hp]

/-- A non-significant frame resets the consecutive-frame counter. -/
lemma frame_debounce_reset (cfg : Config) (disk : List SegInfo) (st : DState)
    (now pct : ℚ) (hp : ¬ cfg.motion_area_percent ≤ pct) :
    frame_debounce cfg disk st now pct =
      { st with consecutive_motion_frames := 0 } := by
  simp [frame_debounce, hp]

/-- A significant frame that does not yet reach `min_motion_frames` only
counts. -/
lemma frame_debounce_building (cfg : Config) (disk : List SegInfo)
    (st : DState) (now pct : ℚ) (hp : cfg.motion_area_percent ≤ pct)
    (hc : ¬ cfg.min_motion_frames ≤ st.consecutive_motion_frames + 1) :
    frame_debounce cfg disk st now pct =
      { st with
          consecutive_motion_frames := st.consecutive_motion_frames + 1
          motion_events := st.motion_events + 1 } := by
  simp [frame_debounce, hp, hc]

/-- A significant frame at or past the debounce bound while the event is
already active stamps `last_motion_time` and counts. -/
lemma frame_debounce_hold (cfg : Config) (disk : List SegInfo) (st : DState)
    (now pct : ℚ) (hp : cfg.motion_area_percent ≤ pct)
    (hc : cfg.min_motion_frames ≤ st.consecutive_motion_frames + 1)
    (ha : st.significant_motion_started = true) :
    frame_debounce cfg disk st now pct =
      { st with
          consecutive_motion_frames := st.consecutive_motion_frames + 1
          motion_events := st.motion_events + 1
          last_motion_time := now } := by
  simp [frame_debounce, hp, hc, ha]

/-- A significant frame reaching the debounce bound while the event is
inactive activates the event and, when auto-detection is on and no
session is active, starts a Motion session. -/
lemma frame_debounce_trigger (cfg : Config) (disk : List SegInfo)
    (st : DState) (now pct : ℚ) (hp : cfg.motion_area_percent ≤ pct)
    (hc : cfg.min_motion_frames ≤ st.consecutive_motion_frames + 1)
    (ha : st.significant_motion_started = false) :
    frame_debounce cfg disk st now pct =
      (if st.motion_detection_enabled = true ∧ st.is_recording = false then
        start_recording cfg disk now RecordingType.MOTION
          { st with
              consecutive_motion_frames := st.consecutive_motion_frames + 1
              motion_events := st.motion_events + 1
              last_motion_time := now
              significant_motion_started := true
              significant_motion_events := st.significant_motion_events + 1 }
      else
        { st with
            consecutive_motion_frames := st.consecutive_motion_frames + 1
            motion_events := st.motion_events + 1
            last_motion_time := now
            significant_motion_started := true
            significant_motion_events := st.significant_motion_events + 1 }) := by
  simp [frame_debounce, hp, hc, ha]

/-- The linger step does nothing while the event is inactive. -/
lemma frame_linger_skip (cfg : Config) (env : Env) (st : DState) (now : ℚ)
    (h : st.significant_motion_started = false) :
    frame_linger cfg env st now = st := by
  simp [frame_linger, h]

/-- The linger step does nothing while the last qualifying motion is
recent enough. -/
lemma frame_linger_recent (cfg : Config) (env : Env) (st : DState) (now : ℚ)
    (h : st.significant_motion_started = true)
    (hr : ¬ cfg.post_motion_seconds < now - st.last_motion_time) :
    frame_linger cfg env st now = st := by
  simp [frame_linger, h, hr]

/-- Once `post_motion_seconds` elapse after the last qualifying motion,
the linger step deactivates the event and stops an active Motion
session. -/
lemma frame_linger_deactivate_stop (cfg : Config) (env : Env) (st : DState)
    (now : ℚ) (h : st.significant_motion_started = true)
    (hr : cfg.post_motion_seconds < now - st.last_motion_time)
    (hrec : st.is_recording = true)
    (hty : st.recording_type = RecordingType.MOTION) :
    frame_linger cfg env st now =
      stop_recording cfg env { st with significant_motion_started := false } := by
  simp [frame_linger, h, hr, hrec, hty]

/-- The deactivation without an active Motion session only clears the
event flag. -/
lemma frame_linger_deactivate_only (cfg : Config) (env : Env) (st : DState)
    (now : ℚ) (h : st.significant_motion_started = true)
    (hr : cfg.post_motion_seconds < now - st.last_motion_time)
    (hno : ¬ (st.is_recording = true ∧
      st.recording_type = RecordingType.MOTION)) :
    frame_linger cfg env st now =
      { st with significant_motion_started := false } := by
  simp only [frame_linger, h, hr, if_true, reduceIte]
  rw [if_neg hno]

/-- The linger step never changes the consecutive-frame counter. -/
lemma frame_linger_consecutive (cfg : Config) (env : Env) (st : DState)
    (now : ℚ) :
    (frame_linger cfg env st now).consecutive_motion_frames
      = st.consecutive_motion_frames := by
  by_cases h : st.significant_motion_started = true
  · by_cases hr : cfg.post_motion_seconds < now - st.last_motion_time
    · by_cases hs : st.is_recording = true ∧
          st.recording_type = RecordingType.MOTION
      · rw [frame_linger_deactivate_stop cfg env st now h hr hs.1 hs.2]
        simp [stop_recording_consecutive]
      · rw [frame_linger_deactivate_only cfg env st now h hr hs]
    · rw [frame_linger_recent cfg env st now h hr]
  · rw [frame_linger_skip cfg env st now (by simpa using h)]

/-- The linger step does nothing when `last_motion_time` was stamped
with the current frame time (no deactivation with a non-negative
post-motion window). -/
lemma frame_linger_fresh (cfg : Config) (env : Env) (st2 : DState) (now : ℚ)
    (hpost : 0 ≤ cfg.post_motion_seconds)
    (hl : st2.last_motion_time = now) :
    frame_linger cfg env st2 now = st2 := by
  by_cases h2 : st2.significant_motion_started = true
  · exact frame_linger_recent cfg env st2 now h2
      (by rw [hl, sub_self]; exact not_lt.mpr hpost)
  · exact frame_linger_skip cfg env st2 now (by simpa using h2)

/-- A significant frame while the event is inactive and the debounce
bound is not yet reached: the counter and the `motion_events` stat grow,
nothing else changes. -/
lemma process_frame_building (cfg : Config) (env : Env) (st : DState)
    (now pct : ℚ) (hsig : st.significant_motion_started = false)
    (hp : cfg.motion_area_percent ≤ pct)
    (hc : ¬ cfg.min_motion_frames ≤ st.consecutive_motion_frames + 1) :
    process_frame cfg env st now pct =
      { st with
          consecutive_motion_frames := st.consecutive_motion_frames + 1
          motion_events := st.motion_events + 1
          frames_processed := st.frames_processed + 1 } := by
  simp only [process_frame]
  rw [frame_refresh_inactive cfg st now pct hsig,
    frame_debounce_building cfg env.disk st now pct hp hc,
    frame_linger_skip cfg env
      { st with
          consecutive_motion_frames := st.consecutive_motion_frames + 1
          motion_events := st.motion_events + 1 } now hsig]

/-- A non-significant frame while the event is inactive: the counter
resets, nothing else changes. -/
lemma process_frame_idle_reset (cfg : Config) (env : Env) (st : DState)
    (now pct : ℚ) (hsig : st.significant_motion_started = false)
    (hp : ¬ cfg.motion_area_percent ≤ pct) :
    process_frame cfg env st now pct =
      { st with
          consecutive_motion_frames := 0
          frames_processed := st.frames_processed + 1 } := by
  simp only [process_frame]
  rw [frame_refresh_inactive cfg st now pct hsig,
    frame_debounce_reset cfg env.disk st now pct hp,
    frame_linger_skip cfg env
      { st with consecutive_motion_frames := 0 } now hsig]

/-- Any non-significant frame leaves the consecutive-frame counter at
zero, whatever the rest of the state. -/
lemma process_frame_reset_consecutive (cfg : Config) (env : Env)
    (st : DState) (now pct : ℚ) (hp : ¬ cfg.motion_area_percent ≤ pct) :
    (process_frame cfg env st now pct).consecutive_motion_frames = 0 := by
  simp only [process_frame]
  rw [frame_linger_consecutive,
    frame_debounce_reset cfg env.disk (frame_refresh cfg st now pct) now pct hp]

/-- A significant frame reaching the debounce bound while the event is
inactive: the event activates, and when auto-detection is on, no session
is active and the segments are fresh, a Motion session starts. -/
lemma process_frame_trigger_facts (cfg : Config) (env : Env) (st : DState)
    (now pct : ℚ) (hpost : 0 ≤ cfg.post_motion_seconds)
    (hsig : st.significant_motion_started = false)
    (hp : cfg.motion_area_percent ≤ pct)
    (hc : cfg.min_motion_frames ≤ st.consecutive_motion_frames + 1) :
    (process_frame cfg env st now pct).significant_motion_started = true ∧
    (st.motion_detection_enabled = true → st.is_recording = false →
      check_segments_fresh env.disk now 10 = true →
      (process_frame cfg env st now pct).is_recording = true ∧
      (process_frame cfg env st now pct).recording_type
        = RecordingType.MOTION) := by
  simp only [process_frame]
  rw [frame_refresh_inactive cfg st now pct hsig,
    frame_debounce_trigger cfg env.disk st now pct hp hc hsig]
  by_cases hcond : st.motion_detection_enabled = true ∧ st.is_recording = false
  · rw [if_pos hcond]
    rw [frame_linger_fresh cfg env
      (start_recording cfg env.disk now RecordingType.MOTION
        { st with
            consecutive_motion_frames := st.consecutive_motion_frames + 1
            motion_events := st.motion_events + 1
            last_motion_time := now
            significant_motion_started := true
            significant_motion_events := st.significant_motion_events + 1 })
      now hpost (by rw [start_recording_lmt])]
    constructor
    · rw [start_recording_sig]
    · intro henab hnorec hfresh
      have hstart : start_recording cfg env.disk now RecordingType.MOTION
          { st with
              consecutive_motion_frames := st.consecutive_motion_frames + 1
              motion_events := st.motion_events + 1
              last_motion_time := now
              significant_motion_started := true
              significant_motion_events := st.significant_motion_events + 1 }
          = { st with
              consecutive_motion_frames := st.consecutive_motion_frames + 1
              motion_events := st.motion_events + 1
              last_motion_time := now
              significant_motion_started := true
              significant_motion_events := st.significant_motion_events + 1
              is_recording := true
              recording_type := RecordingType.MOTION
              cleanup_paused := true
              recording_buffer_start_time := some (now - cfg.buffer_seconds)
              recording_start_time := some now } := by
        unfold start_recording
        rw [if_neg (by simpa using hnorec), if_neg (by rw [hfresh]; simp)]
        simp
      rw [hstart]
      exact ⟨rfl, rfl⟩
  · rw [if_neg hcond]
    rw [frame_linger_fresh cfg env
      { st with
          consecutive_motion_frames := st.consecutive_motion_frames + 1
          motion_events := st.motion_events + 1
          last_motion_time := now
          significant_motion_started := true
          significant_motion_events := st.significant_motion_events + 1 }
      now hpost rfl]
    exact ⟨rfl, fun henab hnorec _ => absurd ⟨henab, hnorec⟩ hcond⟩

/-- C3: with `min_motion_frames = 3` and the event inactive with a zero
counter, three consecutive significant frames activate the event (and
start a Motion session when auto-detection is on, no session is active
and the segment store is fresh — the acceptance condition of
`start_recording`); two significant frames do not activate it, nor do
three significant frames separated by a non-significant one, and any
non-significant frame resets the consecutive-frame counter to zero. -/
theorem claim_C3_debounce (cfg : Config) (env : Env) (s0 : DState)
    (hmin : cfg.min_motion_frames = 3)
    (hpost : 0 ≤ cfg.post_motion_seconds)
    (hinact : s0.significant_motion_started = false)
    (hcnt : s0.consecutive_motion_frames = 0) :
    (∀ t1 t2 t3 p1 p2 p3 : ℚ,
      cfg.motion_area_percent ≤ p1 → cfg.motion_area_percent ≤ p2 →
      cfg.motion_area_percent ≤ p3 →
      (process_frames cfg env s0
          [(t1, p1), (t2, p2), (t3, p3)]).significant_motion_started = true ∧
      (s0.motion_detection_enabled = true → s0.is_recording = false →
        check_segments_fresh env.disk t3 10 = true →
        (process_frames cfg env s0
            [(t1, p1), (t2, p2), (t3, p3)]).is_recording = true ∧
        (process_frames cfg env s0
            [(t1, p1), (t2, p2), (t3, p3)]).recording_type
          = RecordingType.MOTION)) ∧
    (∀ t1 t2 p1 p2 : ℚ,
      cfg.motion_area_percent ≤ p1 → cfg.motion_area_percent ≤ p2 →
      (process_frames cfg env s0
          [(t1, p1), (t2, p2)]).significant_motion_started = false) ∧
    (∀ t1 t2 t3 t4 p1 p2 p3 p4 : ℚ,
      cfg.motion_area_percent ≤ p1 → cfg.motion_area_percent ≤ p2 →
      ¬ cfg.motion_area_percent ≤ p3 → cfg.motion_area_percent ≤ p4 →
      (process_frames cfg env s0
          [(t1, p1), (t2, p2), (t3, p3), (t4, p4)]).significant_motion_started
        = false) ∧
    (∀ (st : DState) (t p : ℚ), ¬ cfg.motion_area_percent ≤ p →
      (process_frame cfg env st t p).consecutive_motion_frames = 0) := by
  have hstep1 : ∀ (st : DState) (t p : ℚ),
      st.significant_motion_started = false →
      st.consecutive_motion_frames = 0 → cfg.motion_area_percent ≤ p →
      process_frame cfg env st t p =
        { st with
            consecutive_motion_frames := 1
            motion_events := st.motion_events + 1
            frames_processed := st.frames_processed + 1 } := by
    intro st t p hs hc0 hp
    rw [process_frame_building cfg env st t p hs hp
      (by rw [hc0, hmin]; omega), hc0]
  have hstep2 : ∀ (st : DState) (t p : ℚ),
      st.significant_motion_started = false →
      st.consecutive_motion_frames = 1 → cfg.motion_area_percent ≤ p →
      process_frame cfg env st t p =
        { st with
            consecutive_motion_frames := 2
            motion_events := st.motion_events + 1
            frames_processed := st.frames_processed + 1 } := by
    intro st t p hs hc1 hp
    rw [process_frame_building cfg env st t p hs hp
      (by rw [hc1, hmin]; omega), hc1]
  refine ⟨?_, ?_, ?_, ?_⟩
  · intro t1 t2 t3 p1 p2 p3 hp1 hp2 hp3
    simp only [process_frames, List.foldl]
    rw [hstep1 s0 t1 p1 hinact hcnt hp1]
    rw [hstep2
      { s0 with
          consecutive_motion_frames := 1
          motion_events := s0.motion_events + 1
          frames_processed := s0.frames_processed + 1 } t2 p2 hinact rfl hp2]
    exact ⟨(process_frame_trigger_facts cfg env
        { s0 with
            consecutive_motion_frames := 2
            motion_events := s0.motion_events + 1 + 1
            frames_processed := s0.frames_processed + 1 + 1 } t3 p3 hpost hinact
        hp3 (by rw [hmin])).1,
      fun henab hnorec hfresh =>
        (process_frame_trigger_facts cfg env
          { s0 with
              consecutive_motion_frames := 2
              motion_events := s0.motion_events + 1 + 1
              frames_processed := s0.frames_processed + 1 + 1 } t3 p3 hpost
          hinact hp3 (by rw [hmin])).2 henab hnorec hfresh⟩
  · intro t1 t2 p1 p2 hp1 hp2
    simp only [process_frames, List.foldl]
    rw [hstep1 s0 t1 p1 hinact hcnt hp1]
    rw [hstep2
      { s0 with
          consecutive_motion_frames := 1
          motion_events := s0.motion_events + 1
          frames_processed := s0.frames_processed + 1 } t2 p2 hinact rfl hp2]
    exact hinact
  · intro t1 t2 t3 t4 p1 p2 p3 p4 hp1 hp2 hp3 hp4
    simp only [process_frames, List.foldl]
    rw [hstep1 s0 t1 p1 hinact hcnt hp1]
    rw [hstep2
      { s0 with
          consecutive_motion_frames := 1
          motion_events := s0.motion_events + 1
          frames_processed := s0.frames_processed + 1 } t2 p2 hinact rfl hp2]
    rw [process_frame_idle_reset cfg env
      { s0 with
          consecutive_motion_frames := 2
          motion_events := s0.motion_events + 1 + 1
          frames_processed := s0.frames_processed + 1 + 1 } t3 p3 hinact hp3]
    rw [hstep1
      { s0 with
          consecutive_motion_frames := 0
          motion_events := s0.motion_events + 1 + 1
          frames_processed := s0.frames_processed + 1 + 1 + 1 } t4 p4 hinact
      rfl hp4]
    exact hinact
  · intro st t p hp
    exact process_frame_reset_consecutive cfg env st t p hp

/-- Closed instance of C3 at the source defaults, with frames at times
101–104: three significant frames activate the event and start a Motion
session; two do not activate it; three significant frames with a
non-significant one in between do not either. -/
theorem claim_C3_debounce_witness :
    base_config.min_motion_frames = 3 ∧
    0 ≤ base_config.post_motion_seconds ∧
    idle_state.significant_motion_started = false ∧
    idle_state.consecutive_motion_frames = 0 ∧
    (process_frames base_config merge_fail_env idle_state
        [(101, 1), (102, 1), (103, 1)]).significant_motion_started = true ∧
    (process_frames base_config merge_fail_env idle_state
        [(101, 1), (102, 1), (103, 1)]).is_recording = true ∧
    (process_frames base_config merge_fail_env idle_state
        [(101, 1), (102, 1), (103, 1)]).recording_type
      = RecordingType.MOTION ∧
    (process_frames base_config merge_fail_env idle_state
        [(101, 1), (102, 1)]).significant_motion_started = false ∧
    (process_frames base_config merge_fail_env idle_state
        [(101, 1), (102, 1), (103, 0), (104, 1)]).significant_motion_started
      = false := by
  have hp : base_config.motion_area_percent ≤ 1 := by
    norm_num [base_config]
  have hnp : ¬ base_config.motion_area_percent ≤ 0 := by
    norm_num [base_config]
  have hfresh : check_segments_fresh merge_fail_env.disk 103 10 = true := by
    norm_num [check_segments_fresh, merge_fail_env, fresh_disk, max_mtime]
  have hC := claim_C3_debounce base_config merge_fail_env idle_state
    (by decide) (by decide) rfl rfl
  exact ⟨by decide, by decide, rfl, rfl,
    (hC.1 101 102 103 1 1 1 hp hp hp).1,
    ((hC.1 101 102 103 1 1 1 hp hp hp).2 rfl rfl hfresh).1,
    ((hC.1 101 102 103 1 1 1 hp hp hp).2 rfl rfl hfresh).2,
    hC.2.1 101 102 1 1 hp hp,
    hC.2.2.1 101 102 103 104 1 1 0 1 hp hp hnp hp⟩

/-- C4: while the event is active (with the extend threshold at or below
the start threshold and a non-negative post-motion window), any frame at
or above the extend threshold — also below the start threshold —
refreshes `last_motion_time` to the frame time and keeps the event
active, a sub-start frame does not advance the start debounce (the
counter resets to zero), the event deactivates exactly when the frame is
below the extend threshold and more than `post_motion_seconds` have
passed since the last qualifying motion, and that deactivation stops an
active Motion session. -/
theorem claim_C4_linger (cfg : Config) (env : Env) (st : DState)
    (now pct : ℚ)
    (hthr : cfg.extend_motion_percent ≤ cfg.motion_area_percent)
    (hpost : 0 ≤ cfg.post_motion_seconds)
    (hact : st.significant_motion_started = true) :
    (cfg.extend_motion_percent ≤ pct →
      (process_frame cfg env st now pct).last_motion_time = now ∧
      (process_frame cfg env st now pct).significant_motion_started = true) ∧
    (cfg.extend_motion_percent ≤ pct → ¬ cfg.motion_area_percent ≤ pct →
      (process_frame cfg env st now pct).consecutive_motion_frames = 0) ∧
    ((process_frame cfg env st now pct).significant_motion_started = false ↔
      ¬ cfg.extend_motion_percent ≤ pct ∧
      cfg.post_motion_seconds < now - st.last_motion_time) ∧
    (¬ cfg.extend_motion_percent ≤ pct →
      cfg.post_motion_seconds < now - st.last_motion_time →
      st.is_recording = true → st.recording_type = RecordingType.MOTION →
      (process_frame cfg env st now pct).is_recording = false ∧
      (process_frame cfg env st now pct).recording_type
        = RecordingType.NONE) := by
  by_cases hp : cfg.extend_motion_percent ≤ pct
  · have h1 := frame_refresh_active cfg st now pct hact hp
    by_cases hs : cfg.motion_area_percent ≤ pct
    · by_cases hc : cfg.min_motion_frames ≤ st.consecutive_motion_frames + 1
      · have hPF : process_frame cfg env st now pct =
            { st with
                last_motion_time := now
                consecutive_motion_frames := st.consecutive_motion_frames + 1
                motion_events := st.motion_events + 1
                frames_processed := st.frames_processed + 1 } := by
          simp only [process_frame]
          rw [h1, frame_debounce_hold cfg env.disk
              { st with last_motion_time := now } now pct hs hc hact,
            frame_linger_fresh cfg env
              { st with
                  last_motion_time := now
                  consecutive_motion_frames := st.consecutive_motion_frames + 1
                  motion_events := st.motion_events + 1 } now hpost rfl]
        rw [hPF]
        exact ⟨fun _ => ⟨rfl, hact⟩, fun _ hns => absurd hs hns,
          by simp [hp, hact], fun hnp => absurd hp hnp⟩
      · have hPF : process_frame cfg env st now pct =
            { st with
                last_motion_time := now
                consecutive_motion_frames := st.consecutive_motion_frames + 1
                motion_events := st.motion_events + 1
                frames_processed := st.frames_processed + 1 } := by
          simp only [process_frame]
          rw [h1, frame_debounce_building cfg env.disk
              { st with last_motion_time := now } now pct hs hc,
            frame_linger_fresh cfg env
              { st with
                  last_motion_time := now
                  consecutive_motion_frames := st.consecutive_motion_frames + 1
                  motion_events := st.motion_events + 1 } now hpost rfl]
        rw [hPF]
        exact ⟨fun _ => ⟨rfl, hact⟩, fun _ hns => absurd hs hns,
          by simp [hp, hact], fun hnp => absurd hp hnp⟩
    · have hPF : process_frame cfg env st now pct =
          { st with
              last_motion_time := now
              consecutive_motion_frames := 0
              frames_processed := st.frames_processed + 1 } := by
        simp only [process_frame]
        rw [h1, frame_debounce_reset cfg env.disk
            { st with last_motion_time := now } now pct hs,
          frame_linger_fresh cfg env
            { st with
                last_motion_time := now
                consecutive_motion_frames := 0 } now hpost rfl]
      rw [hPF]
      exact ⟨fun _ => ⟨rfl, hact⟩, fun _ _ => rfl,
        by simp [hp, hact], fun hnp => absurd hp hnp⟩
  · have hs' : ¬ cfg.motion_area_percent ≤ pct :=
      fun hcon => hp (le_trans hthr hcon)
    have h1 := frame_refresh_low cfg st now pct hp
    by_cases hr : cfg.post_motion_seconds < now - st.last_motion_time
    · by_cases hrec : st.is_recording = true ∧
          st.recording_type = RecordingType.MOTION
      · have hPF : process_frame cfg env st now pct =
            { stop_recording cfg env
                { st with
                    consecutive_motion_frames := 0
                    significant_motion_started := false } with
              frames_processed := (stop_recording cfg env
                { st with
                    consecutive_motion_frames := 0
                    significant_motion_started := false }).frames_processed
                  + 1 } := by
          simp only [process_frame]
          rw [h1, frame_debounce_reset cfg env.disk st now pct hs',
            frame_linger_deactivate_stop cfg env
              { st with consecutive_motion_frames := 0 } now hact hr
              hrec.1 hrec.2]
        rw [hPF]
        have hres := stop_recording_resets cfg env
          { st with
              consecutive_motion_frames := 0
              significant_motion_started := false } hrec.1
        refine ⟨fun hcon => absurd hcon hp, fun hcon _ => absurd hcon hp,
          ?_, fun _ _ _ _ => ⟨?_, ?_⟩⟩
        · have hsig := stop_recording_sig cfg env
            { st with
                consecutive_motion_frames := 0
                significant_motion_started := false }
          constructor
          · intro _
            exact ⟨hp, hr⟩
          · intro _
            exact hsig
        · exact hres.1
        · exact hres.2.1
      · have hPF : process_frame cfg env st now pct =
            { st with
                consecutive_motion_frames := 0
                significant_motion_started := false
                frames_processed := st.frames_processed + 1 } := by
          simp only [process_frame]
          rw [h1, frame_debounce_reset cfg env.disk st now pct hs',
            frame_linger_deactivate_only cfg env
              { st with consecutive_motion_frames := 0 } now hact hr
              (by simpa using hrec)]
        rw [hPF]
        exact ⟨fun hcon => absurd hcon hp, fun hcon _ => absurd hcon hp,
          ⟨fun _ => ⟨hp, hr⟩, fun _ => rfl⟩,
          fun _ _ hr' hty' => absurd ⟨hr', hty'⟩ hrec⟩
    · have hPF : process_frame cfg env st now pct =
          { st with
              consecutive_motion_frames := 0
              frames_processed := st.frames_processed + 1 } := by
        simp only [process_frame]
        rw [h1, frame_debounce_reset cfg env.disk st now pct hs',
          frame_linger_recent cfg env
            { st with consecutive_motion_frames := 0 } now hact hr]
      rw [hPF]
      exact ⟨fun hcon => absurd hcon hp, fun hcon _ => absurd hcon hp,
        ⟨fun hfalse => absurd hfalse (by simp [hact]), fun hh => absurd hh.2 hr⟩,
        fun _ hr' _ _ => absurd hr' hr⟩

/-- An active Motion session whose event is active with the last
qualifying motion at time 100. -/
def active_event_state : DState :=
  { motion_session_state with
      significant_motion_started := true
      last_motion_time := 100 }

/-- Closed instance of C4: at time 101 a frame at 0.3 % (above the 0.2 %
extend threshold, below the 0.5 % start threshold) refreshes
`last_motion_time`, keeps the event active and leaves the debounce
counter at zero; at time 200 a motionless frame deactivates the event
and stops the Motion session. -/
theorem claim_C4_linger_witness :
    base_config.extend_motion_percent ≤ base_config.motion_area_percent ∧
    0 ≤ base_config.post_motion_seconds ∧
    active_event_state.significant_motion_started = true ∧
    base_config.extend_motion_percent ≤ (3/10 : ℚ) ∧
    ¬ base_config.motion_area_percent ≤ (3/10 : ℚ) ∧
    ((process_frame base_config merge_fail_env active_event_state 101
        (3/10)).last_motion_time = 101 ∧
      (process_frame base_config merge_fail_env active_event_state 101
        (3/10)).significant_motion_started = true) ∧
    (process_frame base_config merge_fail_env active_event_state 101
        (3/10)).consecutive_motion_frames = 0 ∧
    ¬ base_config.extend_motion_percent ≤ (0 : ℚ) ∧
    base_config.post_motion_seconds
      < 200 - active_event_state.last_motion_time ∧
    ((process_frame base_config merge_fail_env active_event_state 200
        0).is_recording = false ∧
      (process_frame base_config merge_fail_env active_event_state 200
        0).recording_type = RecordingType.NONE) := by
  have hthr : base_config.extend_motion_percent
      ≤ base_config.motion_area_percent := by norm_num [base_config]
  have hpost : (0 : ℚ) ≤ base_config.post_motion_seconds := by decide
  have hp : base_config.extend_motion_percent ≤ (3/10 : ℚ) := by
    norm_num [base_config]
  have hns : ¬ base_config.motion_area_percent ≤ (3/10 : ℚ) := by
    norm_num [base_config]
  have hnp : ¬ base_config.extend_motion_percent ≤ (0 : ℚ) := by
    norm_num [base_config]
  have hr : base_config.post_motion_seconds
      < 200 - active_event_state.last_motion_time := by
    norm_num [base_config, active_event_state, motion_session_state, idle_state]
  have hC := claim_C4_linger base_config merge_fail_env active_event_state
    101 (3/10) hthr hpost rfl
  have hC2 := claim_C4_linger base_config merge_fail_env active_event_state
    200 0 hthr hpost rfl
  exact ⟨hthr, hpost, rfl, hp, hns, hC.1 hp, hC.2.1 hp hns, hnp, hr,
    hC2.2.2.2 hnp hr rfl rfl⟩

/-- C1: in segmented mode, `get_segments_in_time_range(t0, t1)` returns
exactly the segments that still exist, whose mtime lies in
`[t0 - 2·segment_duration, t1 + 2·segment_duration]` and whose size
exceeds 1000 bytes, and the returned list is sorted ascending by mtime;
segments failing the existence or size check are excluded. -/
theorem claim_C1_segment_selection (segment_duration : ℚ) (disk : List SegInfo)
    (t0 t1 : ℚ) (s : SegInfo) :
    (s ∈ get_segments_in_time_range segment_duration disk t0 t1 ↔
      s ∈ disk ∧ s.present = true ∧
      t0 - segment_duration * 2 ≤ s.mtime ∧
      s.mtime ≤ t1 + segment_duration * 2 ∧
      1000 < s.size) ∧
    (get_segments_in_time_range segment_duration disk t0 t1).Sorted mtime_le := by
  constructor
  · unfold get_segments_in_time_range get_sorted_segments
    simp only [List.mem_insertionSort, List.mem_filter, Bool.and_eq_true,
      decide_eq_true_eq]
    tauto
  · exact List.sorted_insertionSort mtime_le _

/-- Closed instance of C1 at a concrete input. -/
theorem claim_C1_witness :
    (⟨5, 100, 2000, true⟩ ∈
        get_segments_in_time_range 1 [⟨5, 100, 2000, true⟩] 99 101 ↔
      (⟨5, 100, 2000, true⟩ : SegInfo) ∈ [(⟨5, 100, 2000, true⟩ : SegInfo)] ∧
      (true : Bool) = true ∧ (99 : ℚ) - 1 * 2 ≤ 100 ∧
      (100 : ℚ) ≤ 101 + 1 * 2 ∧ 1000 < 2000) ∧
    (get_segments_in_time_range 1 [⟨5, 100, 2000, true⟩] 99 101).Sorted mtime_le :=
  claim_C1_segment_selection 1 [⟨5, 100, 2000, true⟩] 99 101 ⟨5, 100, 2000, true⟩
